import Mathlib

/-!
# Verification of the serial-monitor core (`src/python/serial_monitor.py`)

A shallow embedding of the `SerialDataLogger` class and proofs of the
specification's claims about it.

Modelling conventions:
* Raw text lines are `List Char`.
* Wall-clock instants (`time.time()`, seconds as a float) are modelled as `ℚ`;
  Python's `int(...)` truncation toward zero is `pyInt`.
* The two regular expressions `combined_pattern` and `connection_pattern` are
  embedded as committed (greedy, non-backtracking) matchers.  For these two
  patterns greediness is semantically equal to Python `re` search semantics:
  every `\s*` is followed by a character class disjoint from whitespace
  (a digit or a literal), and every `\d+` is followed by `\s*` and then a
  non-digit literal, so backtracking can never turn a failure into a match.
  `re.search` scans for the leftmost match, embedded as a left-to-right scan
  over suffixes.
* CSV cells are `CsvCell` (integer or string), a row is a `List CsvCell`, and
  each writer's output file is a `List (List CsvCell)`.
* Character classes follow Python's `\s` and `\d` over the ASCII range the
  device protocol uses.
-/

namespace SerialMonitor

/-- Python `\s` on the ASCII range: space, tab, newline, carriage return,
vertical tab, form feed. -/
def pyIsSpace (c : Char) : Bool :=
  c == ' ' || c == '\t' || c == '\n' || c == '\r' || c == '\x0b' || c == '\x0c'

/-- Python `str.strip()` on a list of characters: drop whitespace from both
ends. -/
def pyStrip (l : List Char) : List Char :=
  ((l.dropWhile pyIsSpace).reverse.dropWhile pyIsSpace).reverse

/-- Numeric value of an ASCII digit. -/
def digitVal (c : Char) : ℕ := c.toNat - 48

/-- Value of a string of decimal digits (Python `int` applied to a digit
string, as the regex groups produce). -/
def natOfDigits (ds : List Char) : ℕ :=
  ds.foldl (fun n c => 10 * n + digitVal c) 0

/-- Consume the space-character class `\s*` (greedy). -/
def dropSpaces (l : List Char) : List Char := l.dropWhile pyIsSpace

/-- Consume an exact literal; `eatLit pat l` returns the rest of `l` after the
literal `pat`, or `none` if `l` does not start with `pat`. -/
def eatLit : List Char → List Char → Option (List Char)
  | [], l => some l
  | _ :: _, [] => none
  | c :: cs, x :: xs => if x = c then eatLit cs xs else none

/-- Consume `(\d+)` (greedy): one or more digits, returning their numeric
value and the rest of the input. -/
def readDigits (l : List Char) : Option (ℕ × List Char) :=
  let ds := l.takeWhile Char.isDigit
  if ds = [] then none else some (natOfDigits ds, l.dropWhile Char.isDigit)

/-- Attempt to match `combined_pattern`,
`TIMESTAMP_MS:\s*(\d+)\s*\|\s*HR:\s*(\d+)\s*\|\s*SpO2:\s*(\d+)`,
at the start of `l`, returning the three captured integers. -/
def matchCombinedAt (l : List Char) : Option (ℕ × ℕ × ℕ) :=
  (eatLit "TIMESTAMP_MS:".toList l).bind fun l1 =>
  (readDigits (dropSpaces l1)).bind fun p1 =>
  (eatLit ['|'] (dropSpaces p1.2)).bind fun l2 =>
  (eatLit "HR:".toList (dropSpaces l2)).bind fun l3 =>
  (readDigits (dropSpaces l3)).bind fun p2 =>
  (eatLit ['|'] (dropSpaces p2.2)).bind fun l4 =>
  (eatLit "SpO2:".toList (dropSpaces l4)).bind fun l5 =>
  (readDigits (dropSpaces l5)).map fun p3 =>
  (p1.1, p2.1, p3.1)

/-- `combined_pattern.search`: leftmost match of the combined-telemetry
pattern anywhere in the line. -/
def searchCombined : List Char → Option (ℕ × ℕ × ℕ)
  | [] => matchCombinedAt []
  | c :: rest =>
    match matchCombinedAt (c :: rest) with
    | some r => some r
    | none => searchCombined rest

/-- Attempt to match `connection_pattern`,
`Connection timestamp set at millis:\s*(\d+)`, at the start of `l`. -/
def matchConnectionAt (l : List Char) : Option ℕ :=
  (eatLit "Connection timestamp set at millis:".toList l).bind fun l1 =>
  (readDigits (dropSpaces l1)).map fun p => p.1

/-- `connection_pattern.search`: leftmost match of the connection-start
marker anywhere in the line. -/
def searchConnection : List Char → Option ℕ
  | [] => matchConnectionAt []
  | c :: rest =>
    match matchConnectionAt (c :: rest) with
    | some r => some r
    | none => searchConnection rest

/-- One CSV cell: Python writes either an `int` or a `str` into a cell of a
`csv.writer` row. -/
inductive CsvCell
  | int (n : ℤ)
  | str (s : String)
deriving DecidableEq

/-- Python `int(q)` for a float/rational: truncation toward zero. -/
def pyInt (q : ℚ) : ℤ := if 0 ≤ q then ⌊q⌋ else ⌈q⌉

/-- The mutable state of a `SerialDataLogger` instance, restricted to the
fields the claims are about.  `connection_start_time` is the wall-clock
synchronization anchor (`None` only before `open_serial` runs);
`manualCsvOpen` models `manual_csv_writer is not None`; the two `List`s model
the rows so far appended to the sensor and manual CSV files by this session;
`running` is the shared shutdown flag. -/
structure LoggerState where
  connection_start_time : Option ℚ
  enable_manual_input : Bool
  manualCsvOpen : Bool
  sensorLog : List (List CsvCell)
  manualLog : List (List CsvCell)
  running : Bool
deriving DecidableEq

/-- State after `__init__`: no anchor, no files open, running. -/
def initState (enable_manual_input : Bool) : LoggerState :=
  { connection_start_time := none
    enable_manual_input := enable_manual_input
    manualCsvOpen := false
    sensorLog := []
    manualLog := []
    running := true }

/-- State effect of a successful `open_serial` at wall time `now`: after the
2-second settle delay, `connection_start_time` is initialized to the current
wall-clock time (`self.connection_start_time = time.time()`).  The failure
path (`serial.SerialException`) leaves the state unchanged and `run` aborts
before any loop starts. -/
def open_serial (now : ℚ) (st : LoggerState) : LoggerState :=
  { st with connection_start_time := some now }

/-- State effect of a successful `open_csv`: the manual CSV writer is created
iff `enable_manual_input` is set. -/
def open_csv_state (st : LoggerState) : LoggerState :=
  { st with manualCsvOpen := st.enable_manual_input }

/-- Per-file header logic of `open_csv`: `none` models a path where no file
exists (`output_path.exists()` is false), `some rows` an existing file with
the given rows.  The file is opened in append mode and the header row is
written iff the file did not exist. -/
def open_csv_file (disk : Option (List (List CsvCell))) (header : List CsvCell) :
    List (List CsvCell) :=
  match disk with
  | none => [header]
  | some rows => rows

/-- `csv.writer.writerow` repeated over a list of records: append in order. -/
def append_rows (contents new : List (List CsvCell)) : List (List CsvCell) :=
  contents ++ new

/-- First if-block of `SerialDataLogger.process_line`: when the
connection-start pattern matched, replace the synchronization anchor with
the current wall time (`self.connection_start_time = time.time()`). -/
def sync_on_marker (now : ℚ) (conn : Option ℕ) (st : LoggerState) : LoggerState :=
  match conn with
  | some _ => { st with connection_start_time := some now }
  | none => st

/-- Second if-block of `SerialDataLogger.process_line`: when the combined
pattern matched with captures `(timestamp, hr, spo2)`, append the row
`[system_time, timestamp, hr_value, spo2_value]` to the sensor CSV. -/
def append_sensor (sysTime : String) (comb : Option (ℕ × ℕ × ℕ)) (st : LoggerState) :
    LoggerState :=
  match comb with
  | some abc =>
      { st with sensorLog :=
          st.sensorLog ++
            [[CsvCell.str sysTime, CsvCell.int abc.1, CsvCell.int abc.2.1,
              CsvCell.int abc.2.2]] }
  | none => st

/-- `SerialDataLogger.process_line`: strip the line; if `connection_pattern`
matches anywhere, replace the synchronization anchor with the current wall
time; independently, if `combined_pattern` matches anywhere, append one row
to the sensor CSV.  `sysTime` stands for the formatted `datetime.now()`
string. -/
def process_line (now : ℚ) (sysTime : String) (raw : List Char) (st : LoggerState) :
    LoggerState :=
  append_sensor sysTime (searchCombined (pyStrip raw))
    (sync_on_marker now (searchConnection (pyStrip raw)) st)

/-- `SerialDataLogger.log_manual_heart_rate`: if the manual CSV writer was
never created, print a warning and return.  Otherwise compute the estimated
Arduino timestamp: if `connection_start_time` is not `None`, the elapsed wall
time since the anchor in milliseconds, truncated to an `int`; otherwise the
fallback conditional expression
`(time.time() - self.connection_start_time) if self.connection_start_time else 0`
takes its `else` arm (the anchor is falsy), yielding `int(0 * 1000) = 0`.
The written row is `[system_time, arduino_timestamp if arduino_timestamp
!= '' else 0, hr_value, device, notes]`; the sentinel comparison against the
empty string is kept even though both branches above produce an integer. -/
def log_manual_heart_rate (now : ℚ) (sysTime : String) (hr : ℤ)
    (device notes : String) (st : LoggerState) : LoggerState :=
  if st.manualCsvOpen = false then st
  else
    let arduino_timestamp : CsvCell :=
      match st.connection_start_time with
      | some t => CsvCell.int (pyInt ((now - t) * 1000))
      | none => CsvCell.int (pyInt (0 * 1000))
    let cell : CsvCell :=
      if arduino_timestamp = CsvCell.str "" then CsvCell.int 0 else arduino_timestamp
    { st with manualLog :=
        st.manualLog ++
          [[CsvCell.str sysTime, cell, CsvCell.int hr, CsvCell.str device,
            CsvCell.str notes]] }

/-- Digits possibly grouped by single underscores, as Python's `int(str)`
accepts (`int("1_0") = 10`, while `"_1"`, `"1_"`, `"1__0"` all fail); the
whole input must be consumed. -/
def digitsValAux : ℕ → List Char → Option ℕ
  | acc, [] => some acc
  | acc, '_' :: c :: rest =>
      if c.isDigit then digitsValAux (10 * acc + digitVal c) rest else none
  | _, ['_'] => none
  | acc, c :: rest =>
      if c.isDigit then digitsValAux (10 * acc + digitVal c) rest else none

/-- A nonempty digit group sequence; the first character must be a digit. -/
def digitsValFull : List Char → Option ℕ
  | [] => none
  | c :: rest => if c.isDigit then digitsValAux (digitVal c) rest else none

/-- Python `int(s)` on a text token (ASCII range): surrounding whitespace is
ignored, an optional sign precedes a nonempty run of digits (single
underscores allowed between digits); anything else raises `ValueError`,
modelled as `none`. -/
def pyIntOfString (l : List Char) : Option ℤ :=
  match pyStrip l with
  | '+' :: rest => (digitsValFull rest).map fun n => (n : ℤ)
  | '-' :: rest => (digitsValFull rest).map fun n => -(n : ℤ)
  | rest => (digitsValFull rest).map fun n => (n : ℤ)

/-- Python `str.split(maxsplit=n)` with whitespace separator (CPython
`split_whitespace`): while splits remain, skip whitespace and take a maximal
nonempty run of non-whitespace as the next token; once the split budget is
exhausted, skip whitespace and return the entire remainder (which may itself
contain whitespace) as the final element.  No empty tokens are produced. -/
def splitWs : ℕ → List Char → List (List Char)
  | 0, l =>
      if l.dropWhile pyIsSpace = [] then [] else [l.dropWhile pyIsSpace]
  | n + 1, l =>
      if (l.dropWhile pyIsSpace).takeWhile (fun c => !pyIsSpace c) = [] then []
      else (l.dropWhile pyIsSpace).takeWhile (fun c => !pyIsSpace c) ::
        splitWs n ((l.dropWhile pyIsSpace).dropWhile fun c => !pyIsSpace c)

/-- `user_input.split(maxsplit=2)` as in `manual_input_loop`. -/
def pySplitWs2 (l : List Char) : List (List Char) := splitWs 2 l

/-- Outcome of one iteration of `manual_input_loop`: the operator quit with
an empty line, the input was rejected with a message and a re-prompt
(`ValueError` on `int(parts[0])`), or a manual record was logged. -/
inductive ManualOutcome
  | quit
  | invalid
  | logged
deriving DecidableEq

/-- The `try` body of `manual_input_loop` on the already-split `parts`:
parse `parts[0]` as an integer (on `ValueError`: report and re-prompt, no
record, state untouched); `parts[1]` is the device label when present,
defaulting to `"External"`; `parts[2]` is the notes remainder when present,
defaulting to the empty string; then log the manual record. -/
def manual_entry (now : ℚ) (sysTime : String) (parts : List (List Char))
    (st : LoggerState) : LoggerState × ManualOutcome :=
  match pyIntOfString (parts.headD []) with
  | none => (st, ManualOutcome.invalid)
  | some hr =>
      (log_manual_heart_rate now sysTime hr
        (if 1 < parts.length then (parts.getD 1 []).asString else "External")
        (if 2 < parts.length then (parts.getD 2 []).asString else "") st,
       ManualOutcome.logged)

/-- One iteration of `SerialDataLogger.manual_input_loop`: strip the typed
line; empty input clears `running` and quits; otherwise split into at most
three whitespace-separated fields and hand them to `manual_entry`. -/
def manual_input_iteration (now : ℚ) (sysTime : String) (rawInput : List Char)
    (st : LoggerState) : LoggerState × ManualOutcome :=
  if pyStrip rawInput = [] then ({ st with running := false }, ManualOutcome.quit)
  else manual_entry now sysTime (pySplitWs2 (pyStrip rawInput)) st

/-- One iteration of the body of the simple-mode polling loop in
`SerialDataLogger.run` (the non-annotation path): the body is a single
`if self.serial_conn.in_waiting > 0:` with no `else` inside the loop, so an
iteration that finds no waiting bytes performs no action and, in particular,
does not call `time.sleep`.  The second component records whether
`time.sleep` was called during the iteration. -/
def simple_mode_iteration (now : ℚ) (sysTime : String) (inWaiting : ℕ)
    (raw : List Char) (st : LoggerState) : LoggerState × Bool :=
  if 0 < inWaiting then (process_line now sysTime raw st, false) else (st, false)

/-- The full `while self.running:` / `else: time.sleep(0.01)` construct of
simple mode, run over a finite polling schedule: each scheduled iteration
contributes its own sleep count (always zero, see `simple_mode_iteration`),
and the `else` suite of the `while` runs `time.sleep(0.01)` exactly once when
the loop condition first evaluates false (normal exit).  Returns the final
state and the total number of `time.sleep` calls. -/
def simple_mode_loop (polls : List (ℚ × String × ℕ × List Char)) (st : LoggerState) :
    LoggerState × ℕ :=
  match polls with
  | [] => (st, 1)
  | (now, sysTime, inWaiting, raw) :: rest =>
      let (st1, slept) := simple_mode_iteration now sysTime inWaiting raw st
      let (st2, n) := simple_mode_loop rest st1
      (st2, (if slept then 1 else 0) + n)

/-- One iteration of the background-thread `serial_monitor_loop` (the
annotation-mode reader): unlike simple mode, its `if in_waiting > 0` has an
`else: time.sleep(0.01)` inside the loop body, so an empty poll does sleep. -/
def serial_monitor_loop_iteration (now : ℚ) (sysTime : String) (inWaiting : ℕ)
    (raw : List Char) (st : LoggerState) : LoggerState × Bool :=
  if 0 < inWaiting then (process_line now sysTime raw st, false) else (st, true)

/-- A line in exactly the whitespace-tolerant shape matched by
`combined_pattern`: the three fixed tags and the two `|` delimiters in order,
arbitrary whitespace `s1 … s7` in each of the pattern's seven `\s*` slots,
and the digit groups `d1 d2 d3` of the three captures. -/
def combinedLine (s1 s2 s3 s4 s5 s6 s7 d1 d2 d3 : List Char) : List Char :=
  "TIMESTAMP_MS:".toList ++ (s1 ++ (d1 ++ (s2 ++ (['|'] ++ (s3 ++
    ("HR:".toList ++ (s4 ++ (d2 ++ (s5 ++ (['|'] ++ (s6 ++
      ("SpO2:".toList ++ (s7 ++ d3)))))))))))))

/-! ## Helper lemmas about the character classes and matcher building blocks -/

theorem pyIsSpace_cases {c : Char} (h : pyIsSpace c = true) :
    c = ' ' ∨ c = '\t' ∨ c = '\n' ∨ c = '\r' ∨ c = '\x0b' ∨ c = '\x0c' := by
  simpa [pyIsSpace, Bool.or_eq_true, beq_iff_eq, or_assoc] using h

theorem space_not_digit {c : Char} (h : pyIsSpace c = true) : c.isDigit = false := by
  rcases pyIsSpace_cases h with rfl | rfl | rfl | rfl | rfl | rfl <;> decide

theorem digit_not_space {c : Char} (h : c.isDigit = true) : pyIsSpace c = false := by
  cases hs : pyIsSpace c with
  | false => rfl
  | true => exact absurd h (by simp [space_not_digit hs])

theorem eatLit_append (p r : List Char) : eatLit p (p ++ r) = some r := by
  induction p with
  | nil => rfl
  | cons c cs ih => simp [eatLit, ih]

theorem dropWhile_append_all {p : Char → Bool} {l : List Char} (r : List Char)
    (h : ∀ c ∈ l, p c = true) : (l ++ r).dropWhile p = r.dropWhile p := by
  induction l with
  | nil => rfl
  | cons c cs ih =>
      have hc : p c = true := h c (by simp)
      simp only [List.cons_append, List.dropWhile_cons, hc, if_true]
      exact ih fun x hx => h x (by simp [hx])

theorem dropWhile_eq_self_of_head {p : Char → Bool} {l : List Char}
    (h : ∀ c, l.head? = some c → p c = false) : l.dropWhile p = l := by
  cases l with
  | nil => rfl
  | cons c cs => simp [List.dropWhile_cons, h c rfl]

theorem dropSpaces_append {w : List Char} (r : List Char)
    (hw : ∀ c ∈ w, pyIsSpace c = true)
    (hr : ∀ c, r.head? = some c → pyIsSpace c = false) :
    dropSpaces (w ++ r) = r := by
  unfold dropSpaces
  rw [dropWhile_append_all r hw, dropWhile_eq_self_of_head hr]

theorem takeWhile_append_all {p : Char → Bool} {l : List Char} (r : List Char)
    (hl : ∀ c ∈ l, p c = true)
    (hr : ∀ c, r.head? = some c → p c = false) :
    (l ++ r).takeWhile p = l := by
  induction l with
  | nil =>
      cases r with
      | nil => rfl
      | cons c cs => simp [List.takeWhile_cons, hr c rfl]
  | cons c cs ih =>
      have hc : p c = true := hl c (by simp)
      simp only [List.cons_append, List.takeWhile_cons, hc, if_true]
      rw [ih fun x hx => hl x (by simp [hx])]

theorem readDigits_append {d : List Char} (r : List Char) (hne : d ≠ [])
    (hd : ∀ c ∈ d, c.isDigit = true)
    (hr : ∀ c, r.head? = some c → c.isDigit = false) :
    readDigits (d ++ r) = some (natOfDigits d, r) := by
  unfold readDigits
  rw [takeWhile_append_all r hd hr, dropWhile_append_all r hd,
    dropWhile_eq_self_of_head hr]
  simp [hne]

theorem pyStrip_eq_self {l : List Char}
    (h1 : ∀ c, l.head? = some c → pyIsSpace c = false)
    (h2 : ∀ c, l.getLast? = some c → pyIsSpace c = false) :
    pyStrip l = l := by
  unfold pyStrip
  rw [dropWhile_eq_self_of_head h1, dropWhile_eq_self_of_head
    (by simpa [List.head?_reverse] using h2), List.reverse_reverse]

/-- The head of a nonempty all-digit list followed by anything is not a
space. -/
theorem head_digits_append {d : List Char} (x : List Char) (hne : d ≠ [])
    (hd : ∀ c ∈ d, c.isDigit = true) :
    ∀ c, (d ++ x).head? = some c → pyIsSpace c = false := by
  cases d with
  | nil => exact absurd rfl hne
  | cons a t =>
      intro c hc
      simp only [List.cons_append, List.head?_cons, Option.some.injEq] at hc
      subst hc
      exact digit_not_space (hd a (by simp))

/-- The head of an all-whitespace list followed by a non-digit-headed rest is
not a digit. -/
theorem head_ws_append_nondigit {w : List Char} (r : List Char)
    (hw : ∀ c ∈ w, pyIsSpace c = true)
    (hr : ∀ c, r.head? = some c → c.isDigit = false) :
    ∀ c, (w ++ r).head? = some c → c.isDigit = false := by
  cases w with
  | nil => simpa using hr
  | cons a t =>
      intro c hc
      simp only [List.cons_append, List.head?_cons, Option.some.injEq] at hc
      subst hc
      exact space_not_digit (hw a (by simp))

/-- Head of a cons-headed list satisfies any property its head satisfies. -/
theorem head_cons_prop {P : Char → Prop} {c0 : Char} (h0 : P c0) (t : List Char) :
    ∀ c, (c0 :: t).head? = some c → P c := by
  intro c hc
  simp only [List.head?_cons, Option.some.injEq] at hc
  exact hc ▸ h0

theorem ne_nil_append {x y : List Char} (h : y ≠ []) : x ++ y ≠ [] :=
  fun hc => h (List.append_eq_nil.mp hc).2

/-- A match at the current position makes the search succeed with the same
captures. -/
theorem searchCombined_of_matchAt {l : List Char} {v : ℕ × ℕ × ℕ}
    (h : matchCombinedAt l = some v) : searchCombined l = some v := by
  cases l with
  | nil => simpa [searchCombined] using h
  | cons c rest => simp [searchCombined, h]

theorem searchConnection_of_matchAt {l : List Char} {v : ℕ}
    (h : matchConnectionAt l = some v) : searchConnection l = some v := by
  cases l with
  | nil => simpa [searchConnection] using h
  | cons c rest => simp [searchConnection, h]

theorem head_pipeL_nondigit (t : List Char) :
    ∀ c, ((['|'] : List Char) ++ t).head? = some c → c.isDigit = false := by
  intro c hc
  have h2 : some '|' = some c := hc
  injection h2 with h
  subst h
  decide

theorem head_pipeL_nonspace (t : List Char) :
    ∀ c, ((['|'] : List Char) ++ t).head? = some c → pyIsSpace c = false := by
  intro c hc
  have h2 : some '|' = some c := hc
  injection h2 with h
  subst h
  decide

theorem head_tagHR_nonspace (t : List Char) :
    ∀ c, ("HR:".toList ++ t).head? = some c → pyIsSpace c = false := by
  intro c hc
  have h2 : some 'H' = some c := hc
  injection h2 with h
  subst h
  decide

theorem head_tagSpO2_nonspace (t : List Char) :
    ∀ c, ("SpO2:".toList ++ t).head? = some c → pyIsSpace c = false := by
  intro c hc
  have h2 : some 'S' = some c := hc
  injection h2 with h
  subst h
  decide

theorem matchCombinedAt_combinedLine
    {s1 s2 s3 s4 s5 s6 s7 d1 d2 d3 : List Char}
    (h1 : ∀ c ∈ s1, pyIsSpace c = true) (h2 : ∀ c ∈ s2, pyIsSpace c = true)
    (h3 : ∀ c ∈ s3, pyIsSpace c = true) (h4 : ∀ c ∈ s4, pyIsSpace c = true)
    (h5 : ∀ c ∈ s5, pyIsSpace c = true) (h6 : ∀ c ∈ s6, pyIsSpace c = true)
    (h7 : ∀ c ∈ s7, pyIsSpace c = true)
    (g1n : d1 ≠ []) (g1d : ∀ c ∈ d1, c.isDigit = true)
    (g2n : d2 ≠ []) (g2d : ∀ c ∈ d2, c.isDigit = true)
    (g3n : d3 ≠ []) (g3d : ∀ c ∈ d3, c.isDigit = true) :
    matchCombinedAt (combinedLine s1 s2 s3 s4 s5 s6 s7 d1 d2 d3) =
      some (natOfDigits d1, natOfDigits d2, natOfDigits d3) := by
  have hlast : readDigits d3 = some (natOfDigits d3, []) := by
    have h := readDigits_append (d := d3) [] g3n g3d
      (by intro c hc; simp at hc)
    simpa using h
  unfold combinedLine matchCombinedAt
  rw [eatLit_append]
  simp only [Option.some_bind]
  rw [dropSpaces_append _ h1 (head_digits_append _ g1n g1d),
    readDigits_append _ g1n g1d
      (head_ws_append_nondigit _ h2 (head_pipeL_nondigit _))]
  simp only [Option.some_bind]
  rw [dropSpaces_append _ h2 (head_pipeL_nonspace _), eatLit_append]
  simp only [Option.some_bind]
  rw [dropSpaces_append _ h3 (head_tagHR_nonspace _), eatLit_append]
  simp only [Option.some_bind]
  rw [dropSpaces_append _ h4 (head_digits_append _ g2n g2d),
    readDigits_append _ g2n g2d
      (head_ws_append_nondigit _ h5 (head_pipeL_nondigit _))]
  simp only [Option.some_bind]
  rw [dropSpaces_append _ h5 (head_pipeL_nonspace _), eatLit_append]
  simp only [Option.some_bind]
  rw [dropSpaces_append _ h6 (head_tagSpO2_nonspace _), eatLit_append]
  simp only [Option.some_bind]
  have h7r := head_digits_append (d := d3) [] g3n g3d
  rw [List.append_nil] at h7r
  rw [dropSpaces_append _ h7 h7r, hlast]
  simp

theorem pyStrip_combinedLine
    (s1 s2 s3 s4 s5 s6 s7 d1 d2 d3 : List Char)
    (g3n : d3 ≠ []) (g3d : ∀ c ∈ d3, c.isDigit = true) :
    pyStrip (combinedLine s1 s2 s3 s4 s5 s6 s7 d1 d2 d3) =
      combinedLine s1 s2 s3 s4 s5 s6 s7 d1 d2 d3 := by
  apply pyStrip_eq_self
  · intro c hc
    have h2 : some 'T' = some c := hc
    injection h2 with h
    subst h
    decide
  · intro c hc
    obtain ⟨x, hx⟩ := Option.isSome_iff_exists.mp (List.getLast?_isSome.mpr g3n)
    have hlx : (combinedLine s1 s2 s3 s4 s5 s6 s7 d1 d2 d3).getLast? = some x := by
      unfold combinedLine
      simp only [List.getLast?_append, hx, Option.or_some]
    rw [hlx] at hc
    obtain rfl := Option.some.inj hc
    exact digit_not_space (g3d x (List.mem_of_getLast?_eq_some hx))

/-! ## Behaviour of `process_line` on the state fields it does not write -/

theorem process_line_fields (now : ℚ) (sysTime : String) (raw : List Char)
    (st : LoggerState) :
    (process_line now sysTime raw st).manualCsvOpen = st.manualCsvOpen ∧
    (process_line now sysTime raw st).manualLog = st.manualLog ∧
    (process_line now sysTime raw st).enable_manual_input = st.enable_manual_input ∧
    (process_line now sysTime raw st).running = st.running := by
  unfold process_line sync_on_marker append_sensor
  cases hc : searchConnection (pyStrip raw) <;>
    cases hb : searchCombined (pyStrip raw) <;> simp [hc, hb]

theorem process_line_conn_some {now : ℚ} {sysTime : String} {raw : List Char}
    {st : LoggerState} {v : ℕ} (h : searchConnection (pyStrip raw) = some v) :
    (process_line now sysTime raw st).connection_start_time = some now := by
  unfold process_line sync_on_marker append_sensor
  cases hb : searchCombined (pyStrip raw) <;> simp [h, hb]

theorem process_line_conn_isSome {now : ℚ} {sysTime : String} {raw : List Char}
    {st : LoggerState} (h : st.connection_start_time.isSome = true) :
    (process_line now sysTime raw st).connection_start_time.isSome = true := by
  unfold process_line sync_on_marker append_sensor
  cases hc : searchConnection (pyStrip raw) <;>
    cases hb : searchCombined (pyStrip raw) <;> simp [hc, hb, h]

/-! ## Claim theorems -/

/-- **C2**: for every input line of the combined-telemetry shape — the three
tagged integer fields in order, arbitrary extra interior whitespace around
the tags and the `|` delimiters — `process_line` extracts exactly the three
integers in order and the sensor log gains exactly one row with exactly
those values. -/
theorem combined_telemetry_appends_row
    (s1 s2 s3 s4 s5 s6 s7 d1 d2 d3 : List Char)
    (h1 : ∀ c ∈ s1, pyIsSpace c = true) (h2 : ∀ c ∈ s2, pyIsSpace c = true)
    (h3 : ∀ c ∈ s3, pyIsSpace c = true) (h4 : ∀ c ∈ s4, pyIsSpace c = true)
    (h5 : ∀ c ∈ s5, pyIsSpace c = true) (h6 : ∀ c ∈ s6, pyIsSpace c = true)
    (h7 : ∀ c ∈ s7, pyIsSpace c = true)
    (g1n : d1 ≠ []) (g1d : ∀ c ∈ d1, c.isDigit = true)
    (g2n : d2 ≠ []) (g2d : ∀ c ∈ d2, c.isDigit = true)
    (g3n : d3 ≠ []) (g3d : ∀ c ∈ d3, c.isDigit = true)
    (now : ℚ) (sysTime : String) (st : LoggerState) :
    (process_line now sysTime (combinedLine s1 s2 s3 s4 s5 s6 s7 d1 d2 d3) st).sensorLog
      = st.sensorLog ++ [[CsvCell.str sysTime, CsvCell.int (natOfDigits d1),
          CsvCell.int (natOfDigits d2), CsvCell.int (natOfDigits d3)]] := by
  have hstrip := pyStrip_combinedLine s1 s2 s3 s4 s5 s6 s7 d1 d2 d3 g3n g3d
  have hsearch := searchCombined_of_matchAt
    (matchCombinedAt_combinedLine h1 h2 h3 h4 h5 h6 h7 g1n g1d g2n g2d g3n g3d)
  unfold process_line sync_on_marker append_sensor
  rw [hstrip, hsearch]
  cases hc : searchConnection (combinedLine s1 s2 s3 s4 s5 s6 s7 d1 d2 d3) <;> simp [hc]

/-- Witness for C2 at Scenario A: the single-space instance of the shape is
the literal line `"TIMESTAMP_MS: 1500 | HR: 72 | SpO2: 98"` and produces the
row `(1500, 72, 98)`. -/
theorem combined_telemetry_appends_row_witness :
    combinedLine [' '] [' '] [' '] [' '] [' '] [' '] [' ']
        ['1', '5', '0', '0'] ['7', '2'] ['9', '8']
      = "TIMESTAMP_MS: 1500 | HR: 72 | SpO2: 98".toList ∧
    (process_line 0 "t" (combinedLine [' '] [' '] [' '] [' '] [' '] [' '] [' ']
        ['1', '5', '0', '0'] ['7', '2'] ['9', '8']) (initState false)).sensorLog
      = [[CsvCell.str "t", CsvCell.int 1500, CsvCell.int 72, CsvCell.int 98]] := by
  constructor
  · decide
  · have h := combined_telemetry_appends_row [' '] [' '] [' '] [' '] [' '] [' '] [' ']
      ['1', '5', '0', '0'] ['7', '2'] ['9', '8']
      (by decide) (by decide) (by decide) (by decide) (by decide) (by decide) (by decide)
      (by decide) (by decide) (by decide) (by decide) (by decide) (by decide)
      0 "t" (initState false)
    exact h.trans (by decide)

/-- **C6**: a line matching neither the combined-telemetry shape nor the
connection-start shape leaves the logger entirely unchanged: no row is
appended to either log, no error is raised, and the synchronization anchor
is untouched. -/
theorem unrecognized_line_no_effect (now : ℚ) (sysTime : String) (raw : List Char)
    (st : LoggerState)
    (hconn : searchConnection (pyStrip raw) = none)
    (hcomb : searchCombined (pyStrip raw) = none) :
    process_line now sysTime raw st = st := by
  unfold process_line sync_on_marker append_sensor
  rw [hconn, hcomb]

/-- Witness for C6 at Scenario B: the line `"garbage noise"`. -/
theorem unrecognized_line_no_effect_witness :
    process_line 0 "t" "garbage noise".toList (initState true) = initState true :=
  unrecognized_line_no_effect 0 "t" "garbage noise".toList (initState true)
    (by decide) (by decide)

/-- **C10**: the two shape checks in `process_line` are independent, not
exclusive: one line matching both the connection-start pattern and the
combined-telemetry pattern both replaces the synchronization anchor with the
current wall time and appends a sensor reading row. -/
theorem dual_match_both_effects (now : ℚ) (sysTime : String) (raw : List Char)
    (st : LoggerState) (v a b c : ℕ)
    (hconn : searchConnection (pyStrip raw) = some v)
    (hcomb : searchCombined (pyStrip raw) = some (a, b, c)) :
    process_line now sysTime raw st =
      { st with
          connection_start_time := some now
          sensorLog := st.sensorLog ++
            [[CsvCell.str sysTime, CsvCell.int a, CsvCell.int b, CsvCell.int c]] } := by
  unfold process_line sync_on_marker append_sensor
  rw [hconn, hcomb]

/-- Witness for C10: a single line carrying the reboot-marker phrase and a
full telemetry triple. -/
theorem dual_match_both_effects_witness :
    process_line 5 "t"
        "Connection timestamp set at millis: 7 TIMESTAMP_MS: 1 | HR: 2 | SpO2: 3".toList
        (initState true)
      = { initState true with
            connection_start_time := some 5
            sensorLog := [[CsvCell.str "t", CsvCell.int 1, CsvCell.int 2, CsvCell.int 3]] } :=
  dual_match_both_effects 5 "t" _ (initState true) 7 1 2 3 (by decide) (by decide)

/-- **C5**: after the synchronization anchor is established at `t1` and then
re-established at `t2 > t1` by two connection-start markers processed in
order, every device-time estimate at a wall time `now > t2` is computed as
`now - t2` from the new anchor; the discarded anchor `t1` is never used. -/
theorem anchor_replacement (t1 t2 now : ℚ) (h12 : t1 < t2) (h2n : t2 < now)
    (sy1 sy2 sy3 : String) (raw1 raw2 : List Char) (v1 v2 : ℕ)
    (hm1 : searchConnection (pyStrip raw1) = some v1)
    (hm2 : searchConnection (pyStrip raw2) = some v2)
    (st : LoggerState) (hopen : st.manualCsvOpen = true)
    (hr : ℤ) (device notes : String) :
    (process_line t2 sy2 raw2 (process_line t1 sy1 raw1 st)).connection_start_time
        = some t2 ∧
    (log_manual_heart_rate now sy3 hr device notes
          (process_line t2 sy2 raw2 (process_line t1 sy1 raw1 st))).manualLog
      = (process_line t2 sy2 raw2 (process_line t1 sy1 raw1 st)).manualLog ++
          [[CsvCell.str sy3, CsvCell.int (pyInt ((now - t2) * 1000)),
            CsvCell.int hr, CsvCell.str device, CsvCell.str notes]] := by
  have hc2 : (process_line t2 sy2 raw2 (process_line t1 sy1 raw1 st)).connection_start_time
      = some t2 := process_line_conn_some hm2
  refine ⟨hc2, ?_⟩
  have hop : (process_line t2 sy2 raw2 (process_line t1 sy1 raw1 st)).manualCsvOpen
      = true := by
    rw [(process_line_fields t2 sy2 raw2 (process_line t1 sy1 raw1 st)).1,
      (process_line_fields t1 sy1 raw1 st).1, hopen]
  unfold log_manual_heart_rate
  rw [hop, hc2]
  simp

/-- Witness for C5: two concrete marker lines at times 1 and 2, then a
manual entry at time 3 whose estimated timestamp is `(3 - 2) * 1000 = 1000`
milliseconds past the second anchor. -/
theorem anchor_replacement_witness :
    (process_line 2 "b" "Connection timestamp set at millis: 9".toList
          (process_line 1 "a" "Connection timestamp set at millis: 0".toList
            (open_csv_state (open_serial 0 (initState true))))).connection_start_time
        = some 2 ∧
    (log_manual_heart_rate 3 "c" 81 "Polar" ""
          (process_line 2 "b" "Connection timestamp set at millis: 9".toList
            (process_line 1 "a" "Connection timestamp set at millis: 0".toList
              (open_csv_state (open_serial 0 (initState true)))))).manualLog
      = (process_line 2 "b" "Connection timestamp set at millis: 9".toList
          (process_line 1 "a" "Connection timestamp set at millis: 0".toList
            (open_csv_state (open_serial 0 (initState true))))).manualLog ++
          [[CsvCell.str "c", CsvCell.int 1000, CsvCell.int 81, CsvCell.str "Polar",
            CsvCell.str ""]] := by
  have h := anchor_replacement 1 2 3 (by norm_num) (by norm_num) "a" "b" "c"
    "Connection timestamp set at millis: 0".toList
    "Connection timestamp set at millis: 9".toList 0 9
    (by decide) (by decide)
    (open_csv_state (open_serial 0 (initState true))) (by decide) 81 "Polar" ""
  refine ⟨h.1, h.2.trans ?_⟩
  norm_num [pyInt]

/-- **C9**: after `open_serial` succeeds, `connection_start_time` is always
non-`None`: it is initialized at the serial-open instant, and `process_line`
only ever replaces it with another non-`None` value; hence the
not-yet-synchronized fallback branch in `log_manual_heart_rate` is
unreachable and every manual log row receives an integer estimated timestamp
computed from some anchor. -/
theorem anchor_always_set (now now2 now3 : ℚ) (sy sy2 sy3 : String)
    (raw : List Char) (st st2 : LoggerState) (t : ℚ) (hr : ℤ)
    (device notes : String)
    (hst2 : st2.connection_start_time = some t)
    (hop : st2.manualCsvOpen = true) :
    (open_serial now st).connection_start_time = some now ∧
    ((process_line now2 sy2 raw st2).connection_start_time).isSome = true ∧
    (log_manual_heart_rate now3 sy3 hr device notes st2).manualLog
      = st2.manualLog ++
          [[CsvCell.str sy3, CsvCell.int (pyInt ((now3 - t) * 1000)),
            CsvCell.int hr, CsvCell.str device, CsvCell.str notes]] := by
  refine ⟨rfl, process_line_conn_isSome (by rw [hst2]; rfl), ?_⟩
  unfold log_manual_heart_rate
  rw [hop, hst2]
  simp

/-- Witness for C9. -/
theorem anchor_always_set_witness :
    (open_serial 4 (initState true)).connection_start_time = some 4 ∧
    ((process_line 5 "b" "garbage noise".toList
        (open_csv_state (open_serial 4 (initState true)))).connection_start_time).isSome
        = true ∧
    (log_manual_heart_rate 6 "c" 81 "Polar" ""
          (open_csv_state (open_serial 4 (initState true)))).manualLog
      = (open_csv_state (open_serial 4 (initState true))).manualLog ++
          [[CsvCell.str "c", CsvCell.int (pyInt (((6 : ℚ) - 4) * 1000)),
            CsvCell.int 81, CsvCell.str "Polar", CsvCell.str ""]] :=
  anchor_always_set 4 5 6 "a" "b" "c" "garbage noise".toList (initState true)
    (open_csv_state (open_serial 4 (initState true))) 4 81 "Polar" ""
    (by decide) (by decide)

/-! ## Tokenization lemmas for the manual-input loop -/

theorem head_append_all_false {p : Char → Bool} {t : List Char} (x : List Char)
    (hne : t ≠ []) (ht : ∀ c ∈ t, p c = false) :
    ∀ c, (t ++ x).head? = some c → p c = false := by
  cases t with
  | nil => exact absurd rfl hne
  | cons a s =>
      intro c hc
      simp only [List.cons_append, List.head?_cons, Option.some.injEq] at hc
      subst hc
      exact ht a (by simp)

theorem head_append_all_true {p : Char → Bool} {t : List Char} (x : List Char)
    (hne : t ≠ []) (ht : ∀ c ∈ t, p c = true) :
    ∀ c, (t ++ x).head? = some c → p c = true := by
  cases t with
  | nil => exact absurd rfl hne
  | cons a s =>
      intro c hc
      simp only [List.cons_append, List.head?_cons, Option.some.injEq] at hc
      subst hc
      exact ht a (by simp)

theorem pyStrip_eq_self_of_all {l : List Char} (h : ∀ c ∈ l, pyIsSpace c = false) :
    pyStrip l = l :=
  pyStrip_eq_self
    (fun c hc => h c (List.mem_of_mem_head? (Option.mem_def.mpr hc)))
    (fun c hc => h c (List.mem_of_getLast?_eq_some hc))

theorem splitWs_nil (n : ℕ) : splitWs n [] = [] := by
  cases n <;> rfl

/-- One splitting step of CPython `split_whitespace`: leading whitespace `s`,
then a maximal non-whitespace token `t`, then (whitespace-or-nothing-headed)
`rest`. -/
theorem splitWs_step (n : ℕ) {s t : List Char} (rest : List Char)
    (hs : ∀ c ∈ s, pyIsSpace c = true)
    (htne : t ≠ []) (ht : ∀ c ∈ t, pyIsSpace c = false)
    (hrest : ∀ c, rest.head? = some c → pyIsSpace c = true) :
    splitWs (n + 1) (s ++ (t ++ rest)) = t :: splitWs n rest := by
  have hdrop : (s ++ (t ++ rest)).dropWhile pyIsSpace = t ++ rest := by
    rw [dropWhile_append_all _ hs,
      dropWhile_eq_self_of_head (head_append_all_false rest htne ht)]
  have htok : (t ++ rest).takeWhile (fun c => !pyIsSpace c) = t :=
    takeWhile_append_all rest (fun c hc => by simp [ht c hc])
      (fun c hc => by simp [hrest c hc])
  have hrest2 : (t ++ rest).dropWhile (fun c => !pyIsSpace c) = rest := by
    rw [dropWhile_append_all _ (fun c hc => by simp [ht c hc]),
      dropWhile_eq_self_of_head (fun c hc => by simp [hrest c hc])]
  rw [splitWs, hdrop, htok, hrest2, if_neg htne]

/-- The remainder step: once the split budget is exhausted, whitespace is
skipped and the entire nonempty remainder is the final element. -/
theorem splitWs_zero_skip {s : List Char} (r : List Char)
    (hs : ∀ c ∈ s, pyIsSpace c = true)
    (hrne : r ≠ []) (hr : ∀ c, r.head? = some c → pyIsSpace c = false) :
    splitWs 0 (s ++ r) = [r] := by
  have hdrop : (s ++ r).dropWhile pyIsSpace = r := by
    rw [dropWhile_append_all _ hs, dropWhile_eq_self_of_head hr]
  rw [splitWs, hdrop, if_neg hrne]

theorem getLast?_append_right {x y : List Char} (hy : y ≠ []) :
    (x ++ y).getLast? = y.getLast? := by
  obtain ⟨c, hc⟩ := Option.isSome_iff_exists.mp (List.getLast?_isSome.mpr hy)
  simp [List.getLast?_append, hc]

/-- **C7**: tokenization of a non-empty accepted operator line: at most
three fields; the first token is the heart rate, the second (when present)
the device label, defaulting to `"External"`; the notes are the entire
remainder of the line after the second token (whitespace preserved),
defaulting to empty.  The three conjuncts cover the one-token, two-token and
three-field input shapes. -/
theorem manual_tokenization (now t : ℚ) (sy : String)
    (t1 t2 s1 s2 r : List Char) (hrv : ℤ) (st : LoggerState)
    (ht1n : t1 ≠ []) (ht1 : ∀ c ∈ t1, pyIsSpace c = false)
    (ht2n : t2 ≠ []) (ht2 : ∀ c ∈ t2, pyIsSpace c = false)
    (hs1n : s1 ≠ []) (hs1 : ∀ c ∈ s1, pyIsSpace c = true)
    (hs2n : s2 ≠ []) (hs2 : ∀ c ∈ s2, pyIsSpace c = true)
    (hrn : r ≠ [])
    (hrh : ∀ c, r.head? = some c → pyIsSpace c = false)
    (hrl : ∀ c, r.getLast? = some c → pyIsSpace c = false)
    (hparse : pyIntOfString t1 = some hrv)
    (hst : st.connection_start_time = some t)
    (hop : st.manualCsvOpen = true) :
    manual_input_iteration now sy t1 st
        = ({ st with manualLog := st.manualLog ++
              [[CsvCell.str sy, CsvCell.int (pyInt ((now - t) * 1000)),
                CsvCell.int hrv, CsvCell.str "External", CsvCell.str ""]] },
           ManualOutcome.logged) ∧
    manual_input_iteration now sy (t1 ++ (s1 ++ t2)) st
        = ({ st with manualLog := st.manualLog ++
              [[CsvCell.str sy, CsvCell.int (pyInt ((now - t) * 1000)),
                CsvCell.int hrv, CsvCell.str t2.asString, CsvCell.str ""]] },
           ManualOutcome.logged) ∧
    manual_input_iteration now sy (t1 ++ (s1 ++ (t2 ++ (s2 ++ r)))) st
        = ({ st with manualLog := st.manualLog ++
              [[CsvCell.str sy, CsvCell.int (pyInt ((now - t) * 1000)),
                CsvCell.int hrv, CsvCell.str t2.asString, CsvCell.str r.asString]] },
           ManualOutcome.logged) := by
  refine ⟨?_, ?_, ?_⟩
  · have hstrip : pyStrip t1 = t1 := pyStrip_eq_self_of_all ht1
    have hsplit : pySplitWs2 t1 = [t1] := by
      unfold pySplitWs2
      have h1 := splitWs_step 1 (s := []) (t := t1) [] (by simp) ht1n ht1
        (by intro c hc; simp at hc)
      rw [List.nil_append, List.append_nil] at h1
      rw [h1, splitWs_nil]
    unfold manual_input_iteration
    rw [hstrip, if_neg ht1n, hsplit]
    simp [manual_entry, hparse, log_manual_heart_rate, hop, hst]
  · have hstrip : pyStrip (t1 ++ (s1 ++ t2)) = t1 ++ (s1 ++ t2) := by
      apply pyStrip_eq_self
      · exact head_append_all_false _ ht1n ht1
      · rw [getLast?_append_right (ne_nil_append ht2n), getLast?_append_right ht2n]
        intro c hc
        exact ht2 c (List.mem_of_getLast?_eq_some hc)
    have hne : t1 ++ (s1 ++ t2) ≠ [] := by
      intro h
      exact ht1n (List.append_eq_nil.mp h).1
    have hsplit : pySplitWs2 (t1 ++ (s1 ++ t2)) = [t1, t2] := by
      unfold pySplitWs2
      have h1 := splitWs_step 1 (s := []) (t := t1) (s1 ++ t2) (by simp) ht1n ht1
        (head_append_all_true _ hs1n hs1)
      have h2 := splitWs_step 0 (s := s1) (t := t2) [] hs1 ht2n ht2
        (by intro c hc; simp at hc)
      rw [List.nil_append] at h1
      rw [List.append_nil] at h2
      rw [h1, h2, splitWs_nil]
    unfold manual_input_iteration
    rw [hstrip, if_neg hne, hsplit]
    simp [manual_entry, hparse, log_manual_heart_rate, hop, hst]
  · have hstrip : pyStrip (t1 ++ (s1 ++ (t2 ++ (s2 ++ r))))
        = t1 ++ (s1 ++ (t2 ++ (s2 ++ r))) := by
      apply pyStrip_eq_self
      · exact head_append_all_false _ ht1n ht1
      · rw [getLast?_append_right (ne_nil_append (ne_nil_append (ne_nil_append hrn))),
          getLast?_append_right (ne_nil_append (ne_nil_append hrn)),
          getLast?_append_right (ne_nil_append hrn), getLast?_append_right hrn]
        exact hrl
    have hne : t1 ++ (s1 ++ (t2 ++ (s2 ++ r))) ≠ [] := by
      intro h
      exact ht1n (List.append_eq_nil.mp h).1
    have hsplit : pySplitWs2 (t1 ++ (s1 ++ (t2 ++ (s2 ++ r)))) = [t1, t2, r] := by
      unfold pySplitWs2
      have h1 := splitWs_step 1 (s := []) (t := t1) (s1 ++ (t2 ++ (s2 ++ r)))
        (by simp) ht1n ht1 (head_append_all_true _ hs1n hs1)
      have h2 := splitWs_step 0 (s := s1) (t := t2) (s2 ++ r) hs1 ht2n ht2
        (head_append_all_true _ hs2n hs2)
      have h3 := splitWs_zero_skip (s := s2) r hs2 hrn hrh
      rw [List.nil_append] at h1
      rw [h1, h2, h3]
    unfold manual_input_iteration
    rw [hstrip, if_neg hne, hsplit]
    simp [manual_entry, hparse, log_manual_heart_rate, hop, hst]

/-- Witness for C7 at Scenario C's entry: `"81 Polar"` five seconds after an
anchor yields the row `(5000, 81, Polar, "")`. -/
theorem manual_tokenization_witness :
    manual_input_iteration 5 "c" ("81".toList ++ (" ".toList ++ "Polar".toList))
        (open_csv_state (open_serial 0 (initState true)))
      = ({ open_csv_state (open_serial 0 (initState true)) with
            manualLog := [[CsvCell.str "c", CsvCell.int 5000, CsvCell.int 81,
              CsvCell.str "Polar", CsvCell.str ""]] },
         ManualOutcome.logged) := by
  have h := manual_tokenization 5 0 "c" "81".toList "Polar".toList " ".toList
    " ".toList "a b".toList 81 (open_csv_state (open_serial 0 (initState true)))
    (by decide) (by decide) (by decide) (by decide) (by decide) (by decide)
    (by decide) (by decide) (by decide) (by decide) (by decide) (by decide)
    (by decide) (by decide)
  refine h.2.1.trans ?_
  norm_num [pyInt]
  rfl

/-- **C8**: a non-empty operator line whose first token does not parse as an
integer is reported and re-prompted: no manual record is created, nothing is
raised, and the session state is left unchanged. -/
theorem invalid_input_no_record (now : ℚ) (sy : String) (raw : List Char)
    (st : LoggerState) (hne : pyStrip raw ≠ [])
    (hparse : pyIntOfString ((pySplitWs2 (pyStrip raw)).headD []) = none) :
    manual_input_iteration now sy raw st = (st, ManualOutcome.invalid) := by
  unfold manual_input_iteration manual_entry
  rw [if_neg hne, hparse]

/-- Witness for C8: the line `"abc"`. -/
theorem invalid_input_no_record_witness :
    manual_input_iteration 0 "t" "abc".toList (initState true)
      = (initState true, ManualOutcome.invalid) :=
  invalid_input_no_record 0 "t" "abc".toList (initState true) (by decide) (by decide)

/-- **C3**: per physical log file the header row is written exactly once,
and only when the file held no data at open time: a fresh path gets exactly
the header; opening a path that already contains a header and prior records,
then appending `N` records, yields exactly one header row, followed by all
prior records, followed by the new records, in order. -/
theorem header_written_once (header : List CsvCell) (prior new : List (List CsvCell))
    (hp : header ∉ prior) (hn : header ∉ new) :
    open_csv_file none header = [header] ∧
    append_rows (open_csv_file (some (header :: prior)) header) new
      = header :: (prior ++ new) ∧
    (header :: (prior ++ new)).count header = 1 := by
  refine ⟨rfl, by simp [open_csv_file, append_rows], ?_⟩
  rw [List.count_cons_self, List.count_eq_zero.mpr (by simp [hp, hn])]

/-- Witness for C3 with a concrete header, one prior record and one new
record. -/
theorem header_written_once_witness :
    open_csv_file none [CsvCell.str "h"] = [[CsvCell.str "h"]] ∧
    append_rows (open_csv_file (some ([CsvCell.str "h"] :: [[CsvCell.int 1]]))
        [CsvCell.str "h"]) [[CsvCell.int 2]]
      = [CsvCell.str "h"] :: ([[CsvCell.int 1]] ++ [[CsvCell.int 2]]) ∧
    ([CsvCell.str "h"] :: ([[CsvCell.int 1]] ++ [[CsvCell.int 2]])).count
        [CsvCell.str "h"] = 1 :=
  header_written_once [CsvCell.str "h"] [[CsvCell.int 1]] [[CsvCell.int 2]]
    (by decide) (by decide)

/-- **C4** (the claim is the intended contract; the code diverges): in the
non-annotation path a polling iteration that finds no waiting bytes performs
no idle sleep at all — the `time.sleep(0.01)` sits in the `else` clause of
the `while`, which runs only once, when the loop condition first evaluates
false.  Concretely, an empty-poll iteration reports no sleep call, and a run
of three consecutive empty polls makes exactly one sleep call in total (at
loop exit), not one per empty iteration. -/
theorem simple_mode_busy_spins :
    (simple_mode_iteration 0 "t" 0 [] (initState false)).2 = false ∧
    (simple_mode_loop [(0, "t", 0, []), (1, "t", 0, []), (2, "t", 0, [])]
        (initState false)).2 = 1 := by
  exact ⟨rfl, rfl⟩

/-- **C1** (amended): a manual reading entered before any connection-start
marker has been seen still receives a plain integer
`Estimated_Arduino_Timestamp_ms` — the elapsed milliseconds since the
serial-open instant, which `open_serial` installed as the anchor — with no
unsynced marker of any kind in the row. -/
theorem unsynced_manual_row_plain_integer (t0 now : ℚ) (sy : String) (hr : ℤ)
    (device notes : String) :
    (log_manual_heart_rate now sy hr device notes
        (open_csv_state (open_serial t0 (initState true)))).manualLog
      = [[CsvCell.str sy, CsvCell.int (pyInt ((now - t0) * 1000)),
          CsvCell.int hr, CsvCell.str device, CsvCell.str notes]] := by
  unfold log_manual_heart_rate open_csv_state open_serial initState
  simp

/-- **C1** (counterexample to the claim as stated): Scenario D concretely.
With the serial port opened at wall time 100 and no reboot marker ever seen,
entering `81 Polar` at wall time 105 writes the timestamp cell as the plain
integer `5000` — exactly the cell a synced session (marker at wall time 100
after an open at 50) produces for the same entry.  The unsynced row carries
no sentinel and is indistinguishable from a synced one. -/
theorem unsynced_manual_row_counterexample :
    (log_manual_heart_rate 105 "s" 81 "Polar" ""
        (open_csv_state (open_serial 100 (initState true)))).manualLog
      = [[CsvCell.str "s", CsvCell.int 5000, CsvCell.int 81, CsvCell.str "Polar",
          CsvCell.str ""]] ∧
    (log_manual_heart_rate 105 "s" 81 "Polar" ""
        (process_line 100 "x" "Connection timestamp set at millis: 0".toList
          (open_csv_state (open_serial 50 (initState true))))).manualLog
      = [[CsvCell.str "s", CsvCell.int 5000, CsvCell.int 81, CsvCell.str "Polar",
          CsvCell.str ""]] := by
  constructor
  · unfold log_manual_heart_rate open_csv_state open_serial initState
    norm_num [pyInt]
    decide
  · have h1 : (process_line 100 "x" "Connection timestamp set at millis: 0".toList
        (open_csv_state (open_serial 50 (initState true)))).connection_start_time
        = some 100 := process_line_conn_some (v := 0) (by decide)
    have hf := process_line_fields 100 "x"
      "Connection timestamp set at millis: 0".toList
      (open_csv_state (open_serial 50 (initState true)))
    have h2 : (process_line 100 "x" "Connection timestamp set at millis: 0".toList
        (open_csv_state (open_serial 50 (initState true)))).manualCsvOpen = true := by
      rw [hf.1]
      rfl
    have h3 : (process_line 100 "x" "Connection timestamp set at millis: 0".toList
        (open_csv_state (open_serial 50 (initState true)))).manualLog = [] := by
      rw [hf.2.1]
      rfl
    unfold log_manual_heart_rate
    rw [h2, h1, h3]
    norm_num [pyInt]
    decide

end SerialMonitor
